import Mathlib

/-!
Verification of the EchoVerse demo application (src/app.py).

The development shallowly embeds the logical core of the program:

* the text analytics (`analyze_text`, app.py lines 58-64),
* the tone-rewrite pipeline with model fallback
  (`hf_infer_http`, `rewrite_text`, app.py lines 20-44),
* the audio synthesis wrapper and the Generate Audio button handler
  (`generate_audio`, app.py lines 46-55 and 128-136),
* the source-text selection between an uploaded file and the pasted
  text area (app.py line 110).

Network calls are modelled by explicit oracles mapping a request to an
`Except`-valued response; Python exceptions are modelled by the `error`
constructor of `Except`.  Machine reals are modelled by `ℚ` (the values
involved are small exact fractions).
-/

namespace EchoVerse

/-! ### Python string primitives

Python `str.split()` (no argument) splits on runs of whitespace and
discards empty tokens; `str.split(".")` splits at every dot and keeps
empty segments; `str.strip()` removes leading and trailing whitespace.
All three are embedded on `List Char` so that every function is
structurally recursive and kernel-evaluable.
-/

/-- Whitespace test used by Python `str.split()` and `str.strip()`:
space, tab, newline, carriage return, vertical tab, form feed. -/
def pyIsSpace (c : Char) : Bool :=
  c = ' ' || c = '\t' || c = '\n' || c = '\r' || c.val = 11 || c.val = 12

/-- Split a character list at every character satisfying `p`, keeping
empty segments (the semantics of Python `str.split(sep)` for a
one-character separator, with `p` testing for that separator).
The result is always non-empty. -/
def splitSeg (p : Char → Bool) : List Char → List (List Char)
  | [] => [[]]
  | c :: rest =>
    let r := splitSeg p rest
    if p c then [] :: r
    else
      match r with
      | [] => [[c]]
      | t :: ts => (c :: t) :: ts

/-- Python `text.split()` — whitespace split, empty tokens discarded
(app.py line 59). -/
def pySplitWs (s : String) : List String :=
  ((splitSeg pyIsSpace s.data).filter (· ≠ [])).map fun cs => String.mk cs

/-- Python `text.split(".")` — dot split, empty segments kept
(app.py line 60). -/
def pySplitDot (s : String) : List String :=
  (splitSeg (· = '.') s.data).map fun cs => String.mk cs

/-- Python `s.strip()` — drop leading and trailing whitespace. -/
def stripString (s : String) : String :=
  String.mk (((s.data.dropWhile pyIsSpace).reverse.dropWhile pyIsSpace).reverse)

/-! ### Python rounding

`round(x, 2)` in Python rounds half to even.  The embedding works on the
exact rational value. -/

/-- Round a rational to the nearest integer, halves to even
(Python `round` semantics on the exact value). -/
def roundHalfEven (q : ℚ) : ℤ :=
  let n := ⌊q⌋
  let f : ℚ := q - (n : ℚ)
  if f < 1/2 then n
  else if (1 : ℚ)/2 < f then n + 1
  else if n % 2 = 0 then n else n + 1

/-- Python `round(x, 2)` on the exact rational value. -/
def pyRound2 (q : ℚ) : ℚ := (roundHalfEven (q * 100) : ℚ) / 100

/-! ### Text analyzer (app.py lines 58-64) -/

/-- Result record of `analyze_text` (the Python function returns a dict
with exactly these four keys). -/
structure AnalysisResult where
  words : Nat
  unique_words : Nat
  avg_sentence_len : ℚ
  complexity : ℚ

/-- The non-empty sentence segments: dot segments whose strip is
non-empty (the filter `if s.strip()` on app.py line 62). -/
def nonEmptySentences (text : String) : List String :=
  (pySplitDot text).filter fun s => stripString s ≠ ""

/-- Embedding of app.py line 62:
`avg_len = sum(len(s.split()) for s in sentences if s.strip()) / max(1, len(sentences))`.
Note that the denominator is the number of ALL dot segments, empty ones
included. -/
def avg_sentence_len (text : String) : ℚ :=
  ((((pySplitDot text).filter fun s => stripString s ≠ "").map
      fun s => (pySplitWs s).length).sum : ℚ)
    / ((max 1 (pySplitDot text).length : ℕ) : ℚ)

/-- Embedding of `analyze_text` (app.py lines 58-64).  Python raises
`ZeroDivisionError` at line 63 when `text.split()` is empty, because of
the division `len(vocab)/len(words)`; this is modelled by the `error`
branch.  `len(set(words))` is modelled by `List.dedup`. -/
def analyze_text (text : String) : Except String AnalysisResult :=
  let words := pySplitWs text
  let vocab := words.dedup
  let avg_len := avg_sentence_len text
  if words.length = 0 then
    Except.error "ZeroDivisionError: division by zero"
  else
    Except.ok
      { words := words.length
        unique_words := vocab.length
        avg_sentence_len := avg_len
        complexity :=
          pyRound2 (((vocab.length : ℚ) / (words.length : ℚ)) * 100 + avg_len) }

/-! ### JSON values and Python dynamic operations

`hf_infer_http` (app.py lines 20-31) inspects the decoded JSON response
with `isinstance`, the `in` operator and subscripting.  `Json` models
the values `resp.json()` can produce (JSON numbers are restricted to
integers; no claim involves fractional JSON numbers). -/

inductive Json where
  | null
  | bool (b : Bool)
  | num (n : Int)
  | str (s : String)
  | arr (xs : List Json)
  | obj (fields : List (String × Json))

/-- Python type name of a JSON-decoded value, as it appears in
`TypeError` messages. -/
def pyTypeName : Json → String
  | .null => "NoneType"
  | .bool _ => "bool"
  | .num _ => "int"
  | .str _ => "str"
  | .arr _ => "list"
  | .obj _ => "dict"

/-- A single-quote character, written via its code point. -/
def sqChar : Char := Char.ofNat 39

/-- Hexadecimal digit characters, for Python `\xHH` escapes. -/
def hexDigit (n : Nat) : Char :=
  if n < 10 then Char.ofNat (48 + n) else Char.ofNat (87 + (n % 16))

/-- Escape of one character inside a Python string repr quoted with
`q`: backslash and the quote are backslash-escaped, newline, carriage
return and tab use their short escapes, other control characters use
`\xHH`, everything else is kept. -/
def pyEscChar (q : Char) (c : Char) : List Char :=
  if c = '\\' then ['\\', '\\']
  else if c = q then ['\\', q]
  else if c = '\n' then ['\\', 'n']
  else if c = '\r' then ['\\', 'r']
  else if c = '\t' then ['\\', 't']
  else if c.toNat < 32 || c.toNat = 127 then
    ['\\', 'x', hexDigit (c.toNat / 16 % 16), hexDigit (c.toNat % 16)]
  else [c]

/-- Quote character Python `repr` chooses for a string: single quotes,
unless the string contains a single quote and no double quote. -/
def pyReprQuote (s : String) : Char :=
  if s.data.contains sqChar && !(s.data.contains '"') then '"' else sqChar

/-- Python `repr` of a string: chosen quote around the escaped
characters. -/
def pyReprString (s : String) : String :=
  let q := pyReprQuote s
  String.mk ([q] ++ (s.data.map (pyEscChar q)).flatten ++ [q])

mutual

/-- Python `repr` of a JSON-decoded value (used by `str` on containers;
printable characters outside the escaped set are kept as-is). -/
def pyRepr : Json → String
  | .null => "None"
  | .bool true => "True"
  | .bool false => "False"
  | .num n => toString n
  | .str s => pyReprString s
  | .arr xs => "[" ++ pyReprList xs ++ "]"
  | .obj fs => "\x7b" ++ pyReprFields fs ++ "\x7d"

/-- Comma-separated reprs of the elements of a Python list. -/
def pyReprList : List Json → String
  | [] => ""
  | [x] => pyRepr x
  | x :: y :: xs => pyRepr x ++ ", " ++ pyReprList (y :: xs)

/-- Comma-separated `key: value` reprs of the items of a Python dict. -/
def pyReprFields : List (String × Json) → String
  | [] => ""
  | [(k, v)] => pyReprString k ++ ": " ++ pyRepr v
  | (k, v) :: y :: xs => pyReprString k ++ ": " ++ pyRepr v ++ ", " ++ pyReprFields (y :: xs)

end

/-- Python `str(data)` for a JSON-decoded value: a string is returned
as-is, every other value by its repr. -/
def pyStr (data : Json) : String :=
  match data with
  | .str s => s
  | d => pyRepr d

/-- Python dict lookup `fields.get(k)`: the fields model a dict, so
keys are assumed distinct and the first match is taken. -/
def dictGet (fs : List (String × Json)) (k : String) : Option Json :=
  (fs.find? fun p => p.1 == k).map fun p => p.2

/-- Test whether the first list is an initial segment of the second. -/
def leadsWith : List Char → List Char → Bool
  | [], _ => true
  | _ :: _, [] => false
  | a :: as, b :: bs => a == b && leadsWith as bs

/-- Test whether the first list occurs contiguously inside the second
(Python substring membership `a in b` on strings). -/
def occursIn (pat : List Char) : List Char → Bool
  | [] => leadsWith pat []
  | b :: bs => leadsWith pat (b :: bs) || occursIn pat bs

/-- Python membership test `key in x` on a JSON-decoded value: key
membership for a dict, element membership for a list, substring test
for a string, `TypeError` otherwise. -/
def jsonIn (key : String) (x : Json) : Except String Bool :=
  match x with
  | .obj fs => Except.ok (fs.any fun p => p.1 == key)
  | .arr xs =>
    Except.ok (xs.any fun j =>
      match j with
      | .str s => s == key
      | _ => false)
  | .str s => Except.ok (occursIn key.data s.data)
  | other =>
    Except.error ("TypeError: argument of type " ++ sqChar.toString
      ++ pyTypeName other ++ sqChar.toString ++ " is not iterable")

/-- Python subscript `x[key]` with a string key: dict item lookup
(`KeyError` when absent), `TypeError` on any non-dict value. -/
def getItemStr (x : Json) (key : String) : Except String Json :=
  match x with
  | .obj fs =>
    match dictGet fs key with
    | some v => Except.ok v
    | none => Except.error ("KeyError: " ++ pyReprString key)
  | .arr _ => Except.error "TypeError: list indices must be integers or slices, not str"
  | .str _ => Except.error "TypeError: string indices must be integers"
  | other =>
    Except.error ("TypeError: " ++ sqChar.toString ++ pyTypeName other
      ++ sqChar.toString ++ " object is not subscriptable")

/-! ### Response extraction and the rewrite pipeline (app.py lines 20-44) -/

/-- The `elif isinstance(data, dict) and "generated_text" in data`
branch and the final `return str(data)` of `hf_infer_http`
(app.py lines 29-31). -/
def hf_elif (data : Json) : Except String Json :=
  match data with
  | .obj fs =>
    match dictGet fs "generated_text" with
    | some v => Except.ok v
    | none => Except.ok (Json.str (pyStr data))
  | _ => Except.ok (Json.str (pyStr data))

/-- Shape dispatch of `hf_infer_http` on the decoded JSON (app.py lines
27-31): `isinstance(data, list) and data and "generated_text" in data[0]`
takes `data[0]["generated_text"]`; otherwise a dict with the key yields
`data["generated_text"]`; otherwise `str(data)` is returned. -/
def hf_extract (data : Json) : Except String Json :=
  match data with
  | .arr (x :: _) =>
    (jsonIn "generated_text" x).bind fun b =>
      if b then getItemStr x "generated_text" else hf_elif data
  | _ => hf_elif data

/-- Inference URL built at app.py line 21. -/
def hf_url (model : String) : String :=
  "https://api-inference.huggingface.co/models/" ++ model

/-- Embedding of `hf_infer_http` (app.py lines 20-31).  The HTTP layer
(`requests.post`, `raise_for_status`, `resp.json()`) is modelled by the
oracle `http`, mapping the prompt and the model to either the decoded
JSON body of a successful response or an exception. -/
def hf_infer_http (http : String → String → Except String Json)
    (prompt model : String) : Except String Json :=
  (http prompt model).bind hf_extract

/-- Python `.strip()` applied to the value `hf_infer_http` returned
(app.py line 41): only a string has the attribute. -/
def jsonStrip (v : Json) : Except String String :=
  match v with
  | .str s => Except.ok (stripString s)
  | other =>
    Except.error ("AttributeError: " ++ sqChar.toString ++ pyTypeName other
      ++ sqChar.toString ++ " object has no attribute strip")

/-- One iteration of the fallback loop body
`hf_infer_http(prompt, model).strip()` (app.py line 41). -/
def attemptModel (http : String → String → Except String Json)
    (prompt model : String) : Except String String :=
  (hf_infer_http http prompt model).bind jsonStrip

/-- The candidate model list of app.py lines 35-38. -/
def models_to_try : List String :=
  ["ibm-granite/granite-3.2-8b-instruct", "ibm-granite/granite-3b-instruct"]

/-- The f-string prompt of app.py line 34. -/
def buildPrompt (text tone : String) : String :=
  "Rewrite this text in a " ++ tone ++ " tone:\n\n" ++ text

/-- The `for model in models_to_try: try ... except: continue` loop of
app.py lines 39-44: first successful attempt wins, any exception moves
to the next model, and the original text is returned when the list is
exhausted. -/
def tryModels (http : String → String → Except String Json)
    (prompt fallbackText : String) : List String → String
  | [] => fallbackText
  | m :: rest =>
    match attemptModel http prompt m with
    | Except.ok s => s
    | Except.error _ => tryModels http prompt fallbackText rest

/-- Embedding of `rewrite_text` (app.py lines 33-44). -/
def rewrite_text (http : String → String → Except String Json)
    (text tone : String) : String :=
  tryModels http (buildPrompt text tone) text models_to_try

/-! ### Audio synthesis and the Generate Audio handler
(app.py lines 46-55 and 128-136) -/

/-- The fixed TTS model of app.py line 49. -/
def ttsModel : String := "espnet/kan-bayashi_ljspeech_vits"

/-- Embedding of `generate_audio` (app.py lines 46-55): the
`client.text_to_speech` call is modelled by the oracle `tts` (model,
input text); audio bytes are a list of byte values.  Any exception is
caught, an inline error is shown, and `None` is returned. -/
def generate_audio (tts : String → String → Except String (List Nat))
    (text style : String) : Option (List Nat) :=
  match tts ttsModel (style ++ " style " ++ text) with
  | Except.ok b => some b
  | Except.error _ => none

/-- Observable outcome of the Generate Audio button handler. -/
inductive HandlerAction where
  | warned
  | played (audio : List Nat)

/-- Embedding of the Generate Audio button handler (app.py lines
128-136).  An empty `rewritten_text` is falsy and only warns.
Otherwise `generate_audio` runs; its result is passed to `st.audio`
(display, modelled as a no-op) and then to `open(audio_file, "rb")`.
`open` raises `TypeError` when its argument is `None`; the behavior of
`open` on actual bytes depends on the file system and is abstracted by
the oracle `openFile`. -/
def generateAudioButton (tts : String → String → Except String (List Nat))
    (openFile : List Nat → Except String Unit)
    (rewritten style : String) : Except String HandlerAction :=
  if rewritten = "" then Except.ok HandlerAction.warned
  else
    match generate_audio tts rewritten style with
    | none =>
      Except.error "TypeError: expected str, bytes or os.PathLike object, not NoneType"
    | some b => (openFile b).map fun _ => HandlerAction.played b

/-! ### Source text selection (app.py lines 107-110) -/

/-- Continuation byte test for UTF-8 decoding. -/
def isCont (b : Nat) : Bool := 128 ≤ b && b < 192

/-- Validating UTF-8 decoder on byte values (the semantics of Python
`bytes.decode("utf-8")`): rejects invalid lead bytes, truncated or
malformed sequences, overlong encodings, surrogates and code points
past `0x10FFFF`. -/
def utf8DecodeChars : List Nat → Option (List Char)
  | [] => some []
  | b0 :: rest =>
    if b0 < 128 then (utf8DecodeChars rest).map (Char.ofNat b0 :: ·)
    else if b0 < 194 then none
    else if b0 < 224 then
      match rest with
      | b1 :: rest1 =>
        if isCont b1 then
          (utf8DecodeChars rest1).map (Char.ofNat ((b0 - 192) * 64 + (b1 - 128)) :: ·)
        else none
      | [] => none
    else if b0 < 240 then
      match rest with
      | b1 :: b2 :: rest2 =>
        if isCont b1 && isCont b2 then
          let n := (b0 - 224) * 4096 + (b1 - 128) * 64 + (b2 - 128)
          if n < 2048 then none
          else if 55296 ≤ n && n < 57344 then none
          else (utf8DecodeChars rest2).map (Char.ofNat n :: ·)
        else none
      | _ => none
    else if b0 < 245 then
      match rest with
      | b1 :: b2 :: b3 :: rest3 =>
        if isCont b1 && isCont b2 && isCont b3 then
          let n := (b0 - 240) * 262144 + (b1 - 128) * 4096
            + (b2 - 128) * 64 + (b3 - 128)
          if n < 65536 then none
          else if 1114111 < n then none
          else (utf8DecodeChars rest3).map (Char.ofNat n :: ·)
        else none
      | _ => none
    else none

/-- Python `bytes.decode("utf-8")` as a string-valued decoder. -/
def utf8Decode (bs : List Nat) : Option String :=
  (utf8DecodeChars bs).map fun cs => String.mk cs

/-- Embedding of app.py line 110:
`text = uploaded_file.read().decode("utf-8") if uploaded_file else text_input`.
An uploaded file object is always truthy, so its decoded bytes win over
the pasted text; a decode failure raises `UnicodeDecodeError`. -/
def selectSourceText (uploaded : Option (List Nat)) (text_input : String) :
    Except String String :=
  match uploaded with
  | some bs =>
    match utf8Decode bs with
    | some s => Except.ok s
    | none => Except.error "UnicodeDecodeError"
  | none => Except.ok text_input

/-! ### Spec-side definition for the average-sentence-length claim -/

/-- Statement of the specification, written from its words for
comparison with the code: mean token count per NON-EMPTY sentence
segment, denominator floored to at least 1 (empty segments excluded
from both the sum and the count). -/
def avgSentenceLenClaim (text : String) : ℚ :=
  (((nonEmptySentences text).map fun s => (pySplitWs s).length).sum : ℚ)
    / ((max 1 (nonEmptySentences text).length : ℕ) : ℚ)

/-! ### Shape predicates for the response-extraction claims -/

/-- First accepted response shape: a non-empty list whose first element
is a record carrying the `generated_text` field. -/
def isListShape (d : Json) : Bool :=
  match d with
  | .arr (.obj fs :: _) => fs.any fun p => p.1 == "generated_text"
  | _ => false

/-- Second accepted response shape: a single record carrying the
`generated_text` field. -/
def isDictShape (d : Json) : Bool :=
  match d with
  | .obj fs => fs.any fun p => p.1 == "generated_text"
  | _ => false

/-- Holds unless the value is a non-empty list whose first element is
not a record. -/
def listHeadIsRecord (d : Json) : Bool :=
  match d with
  | .arr (x :: _) =>
    match x with
    | .obj _ => true
    | _ => false
  | _ => true

/-! ### Concrete oracles used by witnesses and counterexamples -/

/-- HTTP oracle on which every model attempt raises. -/
def httpFail : String → String → Except String Json :=
  fun _ _ => Except.error "ConnectionError"

/-- HTTP oracle on which the first candidate model answers with the
list shape and the second is unreachable. -/
def httpGood : String → String → Except String Json :=
  fun _ m =>
    if m == "ibm-granite/granite-3.2-8b-instruct" then
      Except.ok (Json.arr [Json.obj [("generated_text", Json.str "  Hi  ")]])
    else Except.error "unreachable"

/-- TTS oracle on which synthesis always raises. -/
def ttsFail : String → String → Except String (List Nat) :=
  fun _ _ => Except.error "HTTPError: 503 Service Unavailable"

/-- File-system oracle on which `open` succeeds. -/
def openOk : List Nat → Except String Unit :=
  fun _ => Except.ok ()

/-! ### Helper lemmas -/

/-- A successful dict lookup makes the corresponding `any` test true. -/
theorem any_eq_true_of_dictGet (fs : List (String × Json)) (k : String) (v : Json)
    (h : dictGet fs k = some v) : (fs.any fun p => p.1 == k) = true := by
  unfold dictGet at h
  rcases Option.map_eq_some'.mp h with ⟨q, hq, _⟩
  have hmem := List.mem_of_find?_eq_some hq
  have hpq := List.find?_some hq
  exact List.any_eq_true.mpr ⟨q, hmem, hpq⟩

/-- A false `any` test makes the dict lookup fail. -/
theorem dictGet_eq_none_of_any_eq_false (fs : List (String × Json)) (k : String)
    (h : (fs.any fun p => p.1 == k) = false) : dictGet fs k = none := by
  unfold dictGet
  rw [List.find?_eq_none.mpr]
  · rfl
  · intro p hp
    have := List.any_eq_false.mp h p hp
    simpa using this

/-- Splitting always produces at least one segment. -/
theorem splitSeg_ne_nil (p : Char → Bool) (cs : List Char) : splitSeg p cs ≠ [] := by
  cases cs with
  | nil => simp [splitSeg]
  | cons c rest =>
    unfold splitSeg
    by_cases hc : p c
    · simp [hc]
    · simp only [hc, if_neg, Bool.false_eq_true, not_false_eq_true, if_false]
      cases splitSeg p rest <;> simp

/-- Evaluation of the analyzer on the worked example of the
specification: Python whitespace tokenization keeps the periods
attached (`"sat."`, `"ran."`), so there are 6 tokens, 4 distinct ones,
the dot split has 3 segments (one empty), the average is `6/3 = 2`, and
the complexity is `round((4/6)*100 + 2.0, 2) = 68.67`. -/
theorem analyze_example_eval :
    analyze_text "The cat sat. The cat ran." =
      Except.ok
        { words := 6
          unique_words := 4
          avg_sentence_len := 2
          complexity := 6867/100 } := by
  have havg : avg_sentence_len "The cat sat. The cat ran." = 2 := by
    have h1 : (((pySplitDot "The cat sat. The cat ran.").filter
        fun s => stripString s ≠ "").map fun s => (pySplitWs s).length).sum = 6 := by decide
    have h2 : max 1 (pySplitDot "The cat sat. The cat ran.").length = 3 := by decide
    unfold avg_sentence_len
    rw [h1, h2]
    norm_num
  have hw : (pySplitWs "The cat sat. The cat ran.").length = 6 := by decide
  have hv : (pySplitWs "The cat sat. The cat ran.").dedup.length = 4 := by decide
  have hc : pyRound2 ((206 : ℚ) / 3) = 6867/100 := by
    unfold pyRound2 roundHalfEven
    norm_num
  simp only [analyze_text]
  rw [hw, hv, havg]
  norm_num
  exact hc

/-! ### Claim theorems -/

/-- C1 (counterexample).  The analyzer applied to
`"The cat sat. The cat ran."` does not return the record claimed by the
specification (`words = 8`, `unique_words = 5`, `avg_sentence_len = 4.0`,
`complexity = 66.5`). -/
theorem analyze_example_claim_false :
    analyze_text "The cat sat. The cat ran." ≠
      Except.ok
        { words := 8
          unique_words := 5
          avg_sentence_len := 4
          complexity := 133/2 } := by
  rw [analyze_example_eval]
  intro h
  have h2 := (Except.ok.injEq _ _).mp h
  have h3 := congrArg AnalysisResult.words h2
  simp at h3

/-- C1 (amended).  Applying the analyzer to
`"The cat sat. The cat ran."` returns word count 6 (whitespace
tokenization keeps the periods attached to `"sat."` and `"ran."`),
unique-word count 4, average sentence length `6/3 = 2.0` (the token sum
over the 2 non-empty segments divided by the total of 3 dot segments),
and complexity `round((4/6)*100 + 2.0, 2) = 68.67`; the number of
non-empty sentence segments is 2 as claimed. -/
theorem analyze_example_values :
    analyze_text "The cat sat. The cat ran." =
      Except.ok
        { words := 6
          unique_words := 4
          avg_sentence_len := 2
          complexity := 6867/100 }
    ∧ (nonEmptySentences "The cat sat. The cat ran.").length = 2 :=
  ⟨analyze_example_eval, by decide⟩

/-- C2 (counterexample).  On the input `"a."` the analyzer computes
average sentence length `1/2` — the single token is divided by the
total segment count 2 (the segments are `"a"` and `""`) — while the
specification formula (mean over non-empty segments only) yields 1. -/
theorem avg_sentence_len_claim_false :
    avg_sentence_len "a." = 1/2
    ∧ avgSentenceLenClaim "a." = 1
    ∧ avg_sentence_len "a." ≠ avgSentenceLenClaim "a." := by
  have h1 : (((pySplitDot "a.").filter fun s => stripString s ≠ "").map
      fun s => (pySplitWs s).length).sum = 1 := by decide
  have h2 : max 1 (pySplitDot "a.").length = 2 := by decide
  have h3 : ((nonEmptySentences "a.").map fun s => (pySplitWs s).length).sum = 1 := by decide
  have h4 : max 1 (nonEmptySentences "a.").length = 1 := by decide
  have ha : avg_sentence_len "a." = 1/2 := by
    unfold avg_sentence_len
    rw [h1, h2]
    norm_num
  have hb : avgSentenceLenClaim "a." = 1 := by
    unfold avgSentenceLenClaim
    rw [h3, h4]
    norm_num
  refine ⟨ha, hb, ?_⟩
  rw [ha, hb]
  norm_num

/-- C2 (amended).  For every input text, the analyzer average is the
sum of the token counts of the NON-EMPTY dot segments divided by the
TOTAL number of dot segments, empty segments included; empty segments
are excluded from the sum only.  The `max(1, ...)` floor never takes
effect because splitting always yields at least one segment. -/
theorem avg_sentence_len_denominator (text : String) :
    avg_sentence_len text =
      (((nonEmptySentences text).map fun s => (pySplitWs s).length).sum : ℚ)
        / ((pySplitDot text).length : ℚ)
    ∧ 1 ≤ (pySplitDot text).length := by
  have hpos : 1 ≤ (pySplitDot text).length := by
    unfold pySplitDot
    rw [List.length_map]
    have := splitSeg_ne_nil (· = '.') text.data
    exact List.length_pos.mpr this
  constructor
  · unfold avg_sentence_len nonEmptySentences
    rw [Nat.max_eq_right hpos]
  · exact hpos

/-- C3.  For every text whose whitespace split is empty the analyzer
raises the division error of app.py line 63; for every text with at
least one token it returns, without error, the record whose complexity
is `(unique_words / words) * 100 + avg_sentence_len` rounded to two
decimal places. -/
theorem analyze_text_zero_guard (text : String) :
    (pySplitWs text = [] →
      analyze_text text = Except.error "ZeroDivisionError: division by zero")
    ∧ (pySplitWs text ≠ [] →
      analyze_text text =
        Except.ok
          { words := (pySplitWs text).length
            unique_words := (pySplitWs text).dedup.length
            avg_sentence_len := avg_sentence_len text
            complexity :=
              pyRound2 ((((pySplitWs text).dedup.length : ℚ)
                / ((pySplitWs text).length : ℚ)) * 100 + avg_sentence_len text) }) := by
  constructor
  · intro h
    simp only [analyze_text, h]
    rfl
  · intro h
    have hlen : (pySplitWs text).length ≠ 0 := by
      simpa [List.length_eq_zero] using h
    simp only [analyze_text, hlen, if_false]

/-- Witness for C3: the empty string has no tokens and raises the
division error; `"go go"` has two tokens, one of them unique, and
returns the rounded complexity. -/
theorem analyze_text_zero_guard_witness :
    analyze_text "" = Except.error "ZeroDivisionError: division by zero"
    ∧ analyze_text "go go" =
      Except.ok
        { words := (pySplitWs "go go").length
          unique_words := (pySplitWs "go go").dedup.length
          avg_sentence_len := avg_sentence_len "go go"
          complexity :=
            pyRound2 ((((pySplitWs "go go").dedup.length : ℚ)
              / ((pySplitWs "go go").length : ℚ)) * 100 + avg_sentence_len "go go") } :=
  ⟨(analyze_text_zero_guard "").1 rfl, (analyze_text_zero_guard "go go").2 (by decide)⟩

/-- C4.  When every model attempt of the candidate list raises an
exception, `rewrite_text` returns the original input text unchanged —
its return type is a plain string, so no error reaches the caller; the
candidate list consists exactly of the two granite models. -/
theorem rewrite_text_all_fail
    (http : String → String → Except String Json) (text tone e1 e2 : String)
    (h1 : attemptModel http (buildPrompt text tone)
      "ibm-granite/granite-3.2-8b-instruct" = Except.error e1)
    (h2 : attemptModel http (buildPrompt text tone)
      "ibm-granite/granite-3b-instruct" = Except.error e2) :
    rewrite_text http text tone = text
    ∧ models_to_try =
        ["ibm-granite/granite-3.2-8b-instruct", "ibm-granite/granite-3b-instruct"] := by
  constructor
  · unfold rewrite_text models_to_try
    simp only [tryModels, h1, h2]
  · rfl

/-- Witness for C4: on an oracle where every request raises a
connection error, rewriting returns the input. -/
theorem rewrite_text_all_fail_witness :
    attemptModel httpFail (buildPrompt "Hello" "Excited")
      "ibm-granite/granite-3.2-8b-instruct" = Except.error "ConnectionError"
    ∧ attemptModel httpFail (buildPrompt "Hello" "Excited")
      "ibm-granite/granite-3b-instruct" = Except.error "ConnectionError"
    ∧ rewrite_text httpFail "Hello" "Excited" = "Hello" :=
  ⟨rfl, rfl, (rewrite_text_all_fail httpFail "Hello" "Excited" _ _ rfl rfl).1⟩

/-- C6.  For every tone of the fixed selection and every input text,
the prompt is exactly the marker `"Rewrite this text in a {tone} tone:"`
followed by a blank line and then the original text, so it contains the
marker followed by the input. -/
theorem buildPrompt_contains_marker (text tone : String)
    (_h : tone ∈ ["Neutral", "Suspenseful", "Inspiring", "Excited"]) :
    buildPrompt text tone =
      ("Rewrite this text in a " ++ tone ++ " tone:") ++ "\n\n" ++ text := by
  show ("Rewrite this text in a " ++ tone ++ " tone:\n\n") ++ text = _
  rw [show (" tone:\n\n" : String) = " tone:" ++ "\n\n" from rfl]
  simp [String.append_assoc]

/-- Witness for C6 at tone `"Neutral"` and text `"hello"`. -/
theorem buildPrompt_contains_marker_witness :
    buildPrompt "hello" "Neutral" =
      ("Rewrite this text in a " ++ "Neutral" ++ " tone:") ++ "\n\n" ++ "hello" :=
  buildPrompt_contains_marker "hello" "Neutral" (by decide)

/-- C7.  The rewriter consumes the candidate models in order: when the
first model's attempt succeeds with `s`, the result is `s`, and the
result is unchanged under any oracle agreeing with the first on that
single request (the second model is never consulted).  The extraction
accepts the two response shapes — a non-empty list whose first record
carries `generated_text`, or a single such record — and the returned
text is the field value stripped of surrounding whitespace. -/
theorem rewrite_text_first_success
    (http http2 : String → String → Except String Json)
    (text tone s v : String) (fs : List (String × Json)) (rest : List Json)
    (hok : attemptModel http (buildPrompt text tone)
      "ibm-granite/granite-3.2-8b-instruct" = Except.ok s)
    (hfs : dictGet fs "generated_text" = some (Json.str v))
    (hsame : http2 (buildPrompt text tone) "ibm-granite/granite-3.2-8b-instruct"
      = http (buildPrompt text tone) "ibm-granite/granite-3.2-8b-instruct") :
    rewrite_text http text tone = s
    ∧ rewrite_text http2 text tone = s
    ∧ hf_extract (Json.arr (Json.obj fs :: rest)) = Except.ok (Json.str v)
    ∧ hf_extract (Json.obj fs) = Except.ok (Json.str v)
    ∧ jsonStrip (Json.str v) = Except.ok (stripString v) := by
  have hany := any_eq_true_of_dictGet fs "generated_text" (Json.str v) hfs
  have hsame2 : attemptModel http2 (buildPrompt text tone)
      "ibm-granite/granite-3.2-8b-instruct"
      = attemptModel http (buildPrompt text tone)
        "ibm-granite/granite-3.2-8b-instruct" := by
    unfold attemptModel hf_infer_http
    rw [hsame]
  refine ⟨?_, ?_, ?_, ?_, rfl⟩
  · unfold rewrite_text models_to_try
    simp only [tryModels, hok]
  · unfold rewrite_text models_to_try
    simp only [tryModels, hsame2, hok]
  · simp only [hf_extract, jsonIn, hany, Except.bind, if_true, getItemStr, hfs]
  · simp only [hf_extract, hf_elif, hfs]

/-- Witness for C7 on a concrete oracle whose first model answers
`[{"generated_text": "  Hi  "}]`: the rewriter returns the stripped
field value `"Hi"`. -/
theorem rewrite_text_first_success_witness :
    attemptModel httpGood (buildPrompt "x" "Neutral")
      "ibm-granite/granite-3.2-8b-instruct" = Except.ok "Hi"
    ∧ rewrite_text httpGood "x" "Neutral" = "Hi"
    ∧ hf_extract (Json.arr [Json.obj [("generated_text", Json.str "  Hi  ")]])
      = Except.ok (Json.str "  Hi  ")
    ∧ jsonStrip (Json.str "  Hi  ") = Except.ok (stripString "  Hi  ") := by
  have h := rewrite_text_first_success httpGood httpGood "x" "Neutral" "Hi" "  Hi  "
    [("generated_text", Json.str "  Hi  ")] [] rfl rfl rfl
  exact ⟨rfl, h.1, h.2.2.1, h.2.2.2.2⟩

/-- C9 (counterexample).  The response `[3]` — a 2xx JSON body matching
neither accepted shape — does not make `hf_infer_http` return
`str(data)`: the membership test `"generated_text" in data[0]` raises
`TypeError` because an integer is not iterable, so the call fails. -/
theorem hf_extract_typeerror_on_int_head :
    isListShape (Json.arr [Json.num 3]) = false
    ∧ isDictShape (Json.arr [Json.num 3]) = false
    ∧ hf_extract (Json.arr [Json.num 3]) =
        Except.error ("TypeError: argument of type " ++ sqChar.toString
          ++ "int" ++ sqChar.toString ++ " is not iterable") :=
  ⟨rfl, rfl, rfl⟩

/-- C9 (amended).  If a response matches neither accepted shape and is
not a non-empty list whose first element is a non-record value, then
`hf_extract` does not fail: it returns the Python string representation
of the parsed JSON, which the rewriter would return as if it were a
successful rewrite. -/
theorem hf_extract_unmatched_str (d : Json)
    (h1 : isListShape d = false) (h2 : isDictShape d = false)
    (h3 : listHeadIsRecord d = true) :
    hf_extract d = Except.ok (Json.str (pyStr d)) := by
  cases d with
  | null => rfl
  | bool b => rfl
  | num n => rfl
  | str s => rfl
  | obj fs =>
    have hnone := dictGet_eq_none_of_any_eq_false fs "generated_text" (by simpa [isDictShape] using h2)
    simp only [hf_extract, hf_elif, hnone]
  | arr xs =>
    cases xs with
    | nil => rfl
    | cons x rest =>
      cases x with
      | obj gs =>
        have hfalse : (gs.any fun p => p.1 == "generated_text") = false := by
          simpa [isListShape] using h1
        simp [hf_extract, jsonIn, hfalse, Except.bind, hf_elif]
      | null => simp [listHeadIsRecord] at h3
      | bool b => simp [listHeadIsRecord] at h3
      | num n => simp [listHeadIsRecord] at h3
      | str s => simp [listHeadIsRecord] at h3
      | arr ys => simp [listHeadIsRecord] at h3

/-- Witness for C9 (amended) at the record `{"foo": 1}`, which carries
no `generated_text` field: extraction yields the string representation
of the record. -/
theorem hf_extract_unmatched_str_witness :
    isListShape (Json.obj [("foo", Json.num 1)]) = false
    ∧ isDictShape (Json.obj [("foo", Json.num 1)]) = false
    ∧ listHeadIsRecord (Json.obj [("foo", Json.num 1)]) = true
    ∧ hf_extract (Json.obj [("foo", Json.num 1)])
      = Except.ok (Json.str (pyStr (Json.obj [("foo", Json.num 1)]))) :=
  ⟨rfl, rfl, rfl, hf_extract_unmatched_str (Json.obj [("foo", Json.num 1)]) rfl rfl rfl⟩

/-- C5 (code bug witnessed at the failing input).  When the rewritten
text is non-empty and the synthesizer fails (so `generate_audio`
returns `None`), the Generate Audio handler of app.py lines 128-136
does not no-op: it passes `None` to `open(audio_file, "rb")`, which
raises `TypeError`.  (The playback site at lines 112-117 does guard
with `if audio_file:`; the button handler does not.) -/
theorem generate_audio_button_none_raises :
    generate_audio ttsFail "Hello" "Narrative" = none
    ∧ generateAudioButton ttsFail openOk "Hello" "Narrative" =
        Except.error "TypeError: expected str, bytes or os.PathLike object, not NoneType" :=
  ⟨rfl, rfl⟩

/-- C8.  For every byte sequence that UTF-8 decodes, uploading a file
with those bytes while the paste box is empty yields exactly the
decoded string — no trimming or alteration. -/
theorem upload_utf8_roundtrip (X : List Nat) (s : String)
    (h : utf8Decode X = some s) :
    selectSourceText (some X) "" = Except.ok s := by
  simp only [selectSourceText, h]

/-- Witness for C8: the bytes `[104, 105]` decode to `"hi"` and are
returned exactly. -/
theorem upload_utf8_roundtrip_witness :
    utf8Decode [104, 105] = some "hi"
    ∧ selectSourceText (some [104, 105]) "" = Except.ok "hi" :=
  ⟨by decide, upload_utf8_roundtrip [104, 105] "hi" (by decide)⟩

/-- C10.  Whenever an uploaded file is present, the pasted text-area
content is ignored entirely: the selected source text is the same for
every paste-box content, and equals the decoded upload. -/
theorem upload_overrides_paste (bs : List Nat) (p q s : String)
    (h : utf8Decode bs = some s) :
    selectSourceText (some bs) p = selectSourceText (some bs) q
    ∧ selectSourceText (some bs) p = Except.ok s := by
  simp [selectSourceText, h]

/-- Witness for C10: with the upload `[104, 105]` present, a non-empty
paste box is ignored. -/
theorem upload_overrides_paste_witness :
    selectSourceText (some [104, 105]) "pasted text"
      = selectSourceText (some [104, 105]) ""
    ∧ selectSourceText (some [104, 105]) "pasted text" = Except.ok "hi" :=
  upload_overrides_paste [104, 105] "pasted text" "" "hi" (by decide)

end EchoVerse
